import Mathlib

/-!
# Verification of the diffkeeper kernel-side capture layer

Shallow embedding of `src/ebpf/diffkeeper.bpf.c`.  The eBPF program observes
write syscalls and process-exec events and emits fixed-layout records into two
ring channels.  We model:

* machine integers as `Nat` with explicit `% 2 ^ w` where the C code can wrap
  (`size_t` accumulation, `u64 >> 32` pid extraction, `& 0xFFFF` masking);
* fixed-size character buffers as `List Nat` of bytes;
* the kernel string-copy helper `bpf_probe_read_kernel_str` as `writeStr`:
  it copies at most `size - 1` bytes of the NUL-terminated source, writes a
  terminating NUL, and leaves the remainder of the destination untouched;
* `bpf_ringbuf_reserve` as an availability flag plus the previous (stale)
  contents of the reserved slot: the kernel ring buffer does not zero the
  memory it hands out, so any field the probe does not write retains whatever
  bytes the slot held before;
* each probe as a pure function from its inputs and kernel context to a
  result recording the effects that matter: whether a reservation was
  attempted, whether a slot was obtained, whether the path resolver ran, the
  list of submitted records, and the probe's return value.
-/

/-- `struct syscall_event`: pid (u32), bytes (u64), path (char[256]). -/
structure syscall_event where
  pid : Nat
  bytes : Nat
  path : List Nat
deriving Repr, DecidableEq

/-- `struct lifecycle_event`: pid (u32), state (u32), runtime (char[16]),
`namespace` (char[64], renamed `nspace` because `namespace` is reserved in
Lean), container (char[64]). -/
structure lifecycle_event where
  pid : Nat
  state : Nat
  runtime : List Nat
  nspace : List Nat
  container : List Nat
deriving Repr, DecidableEq

/-- The in-kernel `struct file` data the probes read: the dentry name
(`f_path.dentry->d_name.name`, the bytes of the C string, NUL excluded) and
the outcome of `bpf_d_path` on `f_path` (`some p` = success writing the
NUL-terminated path `p`; `none` = negative return, resolution failed). -/
structure File where
  dentryName : List Nat
  dPath : Option (List Nat)
deriving Repr, DecidableEq

/-- `struct kiocb`: only the `ki_filp` field is read (`none` models a NULL
file pointer). -/
structure Kiocb where
  ki_filp : Option File
deriving Repr, DecidableEq

/-- `struct uts_namespace`: only `name.nodename` is read (bytes of the C
string, NUL excluded). -/
structure UtsNs where
  nodename : List Nat
deriving Repr, DecidableEq

/-- `struct nsproxy`: only the `uts_ns` pointer is read. -/
structure Nsproxy where
  uts_ns : Option UtsNs
deriving Repr, DecidableEq

/-- The fields of `struct task_struct` the exec probe reads: the `nsproxy`
pointer and the short command name (`comm`, bytes of the C string). -/
structure TaskStruct where
  nsproxy : Option Nsproxy
  comm : List Nat
deriving Repr, DecidableEq

/-- `struct trace_event_raw_sched_process_exec`: the `__data_loc_filename`
descriptor word and the raw bytes of the whole trace record (`payload`,
indexed from the record base, so byte `i` of `payload` is `((char *)ctx)[i]`). -/
structure ExecCtx where
  data_loc_filename : Nat
  payload : List Nat
deriving Repr, DecidableEq

/-- The bounded NUL-terminating string copy shared by
`bpf_probe_read_kernel_str(dst, size, src)`, `bpf_d_path` writing into a
`size`-byte buffer, and `bpf_get_current_comm(dst, size)`: copies at most
`size - 1` bytes of the source string `src` (its bytes up to but excluding
the NUL), appends the terminating NUL, and leaves the rest of the destination
buffer `dst` unchanged.  `size` is the `sizeof` the C code passes. -/
def writeStr (dst : List Nat) (size : Nat) (src : List Nat) : List Nat :=
  let w := src.take (size - 1) ++ [0]
  w ++ dst.drop w.length

/-- The C string stored in `mem` at byte offset `off`: the bytes from `off`
up to (excluding) the first NUL. -/
def cstrAt (mem : List Nat) (off : Nat) : List Nat :=
  (mem.drop off).takeWhile (fun b => b != 0)

/-- The string content of a fixed-size buffer: its bytes up to the first NUL. -/
def bufStr (buf : List Nat) : List Nat :=
  buf.takeWhile (fun b => b != 0)

/-- The `size_t total` accumulation of `kprobe_vfs_writev` / `kprobe_vfs_pwritev`:
`total += len` over the segment lengths in index order, wrapping modulo
`2 ^ 64` at every step as the 64-bit `size_t` does. -/
def sumSegs (iovLens : List Nat) : Nat :=
  iovLens.foldl (fun total len => (total + len) % 2 ^ 64) 0

/-- Effects of one invocation of `emit_syscall_event` (and hence of each of
the three write kprobes, which delegate to it). -/
structure EmitResult where
  reserveAttempted : Bool
  slotReserved : Bool
  resolverInvoked : Bool
  submitted : List syscall_event
  ret : Int
deriving Repr, DecidableEq

/-- Effects of one invocation of `handle_sched_exec`. -/
structure ExecResult where
  slotReserved : Bool
  submitted : List lifecycle_event
  ret : Int
deriving Repr, DecidableEq

/-- `emit_syscall_event(ctx, file, count)`.  Inputs beyond the C arguments:
`pid_tgid` is the value `bpf_get_current_pid_tgid()` returns (a u64, thread-group
id in the upper half); `reserveOk` says whether `bpf_ringbuf_reserve` finds a
free slot; `stale` is the previous contents of the slot memory the ring buffer
hands out (not zeroed by the kernel).

Faithful to the source: NULL file check first (before any reservation);
reservation failure returns 0 with nothing emitted; otherwise pid is the u64
shifted right 32 and stored into a u32, bytes is `count` stored into a u64,
the path buffer is `memset` to zero, then `bpf_d_path` is tried and on a
negative result the dentry name is copied as fallback; the record is then
submitted. -/
def emit_syscall_event (pid_tgid : Nat) (reserveOk : Bool) (stale : syscall_event)
    (file : Option File) (count : Nat) : EmitResult :=
  match file with
  | none =>
      { reserveAttempted := false, slotReserved := false, resolverInvoked := false
        submitted := [], ret := 0 }
  | some f =>
      if reserveOk then
        let pid := pid_tgid / 2 ^ 32 % 2 ^ 32
        let bytes := count % 2 ^ 64
        let pathBuf :=
          match f.dPath with
          | some p => writeStr (List.replicate 256 0) 256 p
          | none => writeStr (List.replicate 256 0) 256 f.dentryName
        { reserveAttempted := true, slotReserved := true, resolverInvoked := true
          submitted := [{ pid := pid, bytes := bytes, path := pathBuf }], ret := 0 }
      else
        { reserveAttempted := true, slotReserved := false, resolverInvoked := false
          submitted := [], ret := 0 }

/-- `kprobe_vfs_write`: passes the caller-supplied `count` straight through. -/
def kprobe_vfs_write (pid_tgid : Nat) (reserveOk : Bool) (stale : syscall_event)
    (file : Option File) (count : Nat) : EmitResult :=
  emit_syscall_event pid_tgid reserveOk stale file count

/-- `kprobe_vfs_writev`: reads `iocb->ki_filp`, sums the `iov_len` fields in
index order into a `size_t`, then delegates. -/
def kprobe_vfs_writev (pid_tgid : Nat) (reserveOk : Bool) (stale : syscall_event)
    (iocb : Kiocb) (iovLens : List Nat) : EmitResult :=
  emit_syscall_event pid_tgid reserveOk stale iocb.ki_filp (sumSegs iovLens)

/-- `kprobe_vfs_pwritev`: same summation, file handle passed directly. -/
def kprobe_vfs_pwritev (pid_tgid : Nat) (reserveOk : Bool) (stale : syscall_event)
    (file : Option File) (iovLens : List Nat) : EmitResult :=
  emit_syscall_event pid_tgid reserveOk stale file (sumSegs iovLens)

/-- `handle_sched_exec(ctx)`.  Faithful to the source: reservation failure
returns 0 with nothing emitted; otherwise pid and `state = 1` are set, the
current comm is copied into `runtime` (`bpf_get_current_comm` zero-fills its
16-byte destination before copying), and the namespace field is populated by
cases: if `task->nsproxy` is non-NULL and `nsproxy->uts_ns` is non-NULL the
nodename string is copied over the slot's previous bytes; if `nsproxy` is
non-NULL but `uts_ns` is NULL *nothing writes the field*, so it keeps the
stale slot bytes; if `nsproxy` is NULL it is explicitly `memset` to zero.
Finally the filename string at offset `__data_loc_filename & 0xFFFF` inside
the trace record is copied into `container` and the record is submitted. -/
def handle_sched_exec (pid_tgid : Nat) (reserveOk : Bool) (stale : lifecycle_event)
    (task : TaskStruct) (ctx : ExecCtx) : ExecResult :=
  if reserveOk then
    let pid := pid_tgid / 2 ^ 32 % 2 ^ 32
    let runtime := writeStr (List.replicate 16 0) 16 task.comm
    let ns :=
      match task.nsproxy with
      | some nsp =>
          match nsp.uts_ns with
          | some uts => writeStr stale.nspace 64 uts.nodename
          | none => stale.nspace
      | none => List.replicate 64 0
    let off := ctx.data_loc_filename % 2 ^ 16
    let container := writeStr stale.container 64 (cstrAt ctx.payload off)
    { slotReserved := true
      submitted := [{ pid := pid, state := 1, runtime := runtime, nspace := ns
                      container := container }]
      ret := 0 }
  else
    { slotReserved := false, submitted := [], ret := 0 }

/-! ## Helper lemmas about the buffer and summation models -/

/-- The wrapping accumulator agrees with the exact sum as long as the exact
sum fits in 64 bits, for any starting accumulator. -/
theorem sumSegs_go_eq (iovLens : List Nat) :
    ∀ acc : Nat, acc + iovLens.sum < 2 ^ 64 →
      iovLens.foldl (fun total len => (total + len) % 2 ^ 64) acc = acc + iovLens.sum := by
  induction iovLens with
  | nil => intro acc _; simp
  | cons l ls ih =>
      intro acc h
      simp only [List.foldl_cons, List.sum_cons] at *
      have hlt : acc + l < 2 ^ 64 := by omega
      rw [Nat.mod_eq_of_lt hlt, ih (acc + l) (by omega)]
      omega

/-- `sumSegs` computes the exact segment sum whenever it fits in 64 bits. -/
theorem sumSegs_eq (iovLens : List Nat) (h : iovLens.sum < 2 ^ 64) :
    sumSegs iovLens = iovLens.sum := by
  have := sumSegs_go_eq iovLens 0 (by omega)
  simpa [sumSegs] using this

theorem takeWhile_append_of_all {p : Nat → Bool} (xs ys : List Nat)
    (h : ∀ x ∈ xs, p x = true) :
    (xs ++ ys).takeWhile p = xs ++ ys.takeWhile p := by
  induction xs with
  | nil => simp
  | cons a l ih =>
      have ha : p a = true := h a (by simp)
      simp only [List.cons_append, List.takeWhile_cons, ha]
      simp [ih (fun x hx => h x (by simp [hx]))]

/-- Reading the string back out of a buffer written by `writeStr` yields the
source truncated to the capacity minus the terminator, regardless of what the
buffer held before. -/
theorem bufStr_writeStr (dst : List Nat) (size : Nat) (src : List Nat)
    (hs : ∀ b ∈ src, b ≠ 0) :
    bufStr (writeStr dst size src) = src.take (size - 1) := by
  unfold bufStr writeStr
  rw [List.append_assoc]
  rw [takeWhile_append_of_all (src.take (size - 1)) _ (by
    intro x hx
    have hmem : x ∈ src := List.mem_of_mem_take hx
    simpa using hs x hmem)]
  simp [List.takeWhile_cons]

/-- A buffer written by `writeStr` always contains a NUL byte. -/
theorem zero_mem_writeStr (dst : List Nat) (size : Nat) (src : List Nat) :
    0 ∈ writeStr dst size src := by
  unfold writeStr
  simp

/-- `writeStr` into a buffer of exactly `size` bytes preserves its length. -/
theorem writeStr_length (dst : List Nat) (size : Nat) (src : List Nat)
    (h : dst.length = size) (h1 : 1 ≤ size) :
    (writeStr dst size src).length = size := by
  unfold writeStr
  simp only [List.length_append, List.length_take, List.length_drop,
    List.length_cons, List.length_nil]
  omega

/-- Every byte of a C string extracted by `cstrAt` is nonzero. -/
theorem cstrAt_ne_zero (mem : List Nat) (off : Nat) :
    ∀ b ∈ cstrAt mem off, b ≠ 0 := by
  intro b hb
  have := List.mem_takeWhile_imp hb
  simpa using this

set_option maxRecDepth 4000

/-- Unfolding lemma: a write capture with a live file and a free slot. -/
theorem emit_syscall_event_some_true (pid_tgid count : Nat) (stale : syscall_event)
    (f : File) :
    emit_syscall_event pid_tgid true stale (some f) count =
      { reserveAttempted := true, slotReserved := true, resolverInvoked := true
        submitted := [{ pid := pid_tgid / 2 ^ 32 % 2 ^ 32, bytes := count % 2 ^ 64
                        path := match f.dPath with
                          | some p => writeStr (List.replicate 256 0) 256 p
                          | none => writeStr (List.replicate 256 0) 256 f.dentryName }]
        ret := 0 } := rfl

/-- Unfolding lemma: an exec capture with a free slot. -/
theorem handle_sched_exec_true (pid_tgid : Nat) (stale : lifecycle_event)
    (task : TaskStruct) (ctx : ExecCtx) :
    handle_sched_exec pid_tgid true stale task ctx =
      { slotReserved := true
        submitted := [{ pid := pid_tgid / 2 ^ 32 % 2 ^ 32, state := 1
                        runtime := writeStr (List.replicate 16 0) 16 task.comm
                        nspace :=
                          match task.nsproxy with
                          | some nsp =>
                              match nsp.uts_ns with
                              | some uts => writeStr stale.nspace 64 uts.nodename
                              | none => stale.nspace
                          | none => List.replicate 64 0
                        container := writeStr stale.container 64
                          (cstrAt ctx.payload (ctx.data_loc_filename % 2 ^ 16)) }]
        ret := 0 } := rfl

/-! ## Claim theorems -/

/-- Claim C1: for every vectored write (plain `vfs_writev` or offset
`vfs_pwritev`) with segment lengths L₀..Lₙ₋₁ whose exact sum fits the 64-bit
field, the `bytes` field of the emitted SyscallEvent equals the sum of the
per-segment lengths in index order; `n = 0` gives the empty list whose sum
is 0. -/
theorem C1_vectored_bytes_eq_sum (pid_tgid : Nat) (stale : syscall_event) (f : File)
    (iovLens : List Nat) (h : iovLens.sum < 2 ^ 64) :
    ((kprobe_vfs_writev pid_tgid true stale ⟨some f⟩ iovLens).submitted.map
        syscall_event.bytes = [iovLens.sum]) ∧
    ((kprobe_vfs_pwritev pid_tgid true stale (some f) iovLens).submitted.map
        syscall_event.bytes = [iovLens.sum]) := by
  have hs := sumSegs_eq iovLens h
  constructor <;>
      simp [kprobe_vfs_writev, kprobe_vfs_pwritev, emit_syscall_event, hs,
        Nat.mod_eq_of_lt h] <;>
    omega

/-- Witness for C1: the spec scenario of three segments 10, 20, 5 yields one
event with bytes = 35, on both vectored entry points. -/
theorem C1_vectored_bytes_eq_sum_witness :
    ((kprobe_vfs_writev 0 true ⟨0, 0, []⟩ ⟨some ⟨[], none⟩⟩ [10, 20, 5]).submitted.map
        syscall_event.bytes = [35]) ∧
    ((kprobe_vfs_pwritev 0 true ⟨0, 0, []⟩ (some ⟨[], none⟩) [10, 20, 5]).submitted.map
        syscall_event.bytes = [35]) := by
  have h := C1_vectored_bytes_eq_sum 0 ⟨0, 0, []⟩ ⟨[], none⟩ [10, 20, 5] (by norm_num)
  simpa using h

/-- Claim C2 (code bug): the claim says the `namespace` field is empty
whenever the task has no namespace-group pointer or no UTS-namespace pointer.
The code only zero-fills it in the first case: when `task->nsproxy` is
non-NULL but `nsproxy->uts_ns` is NULL, no statement writes the field, so it
keeps whatever bytes the reserved ring-buffer slot already held (the kernel
does not zero reserved slots).  At the concrete failing input below — a task
with a namespace group but no UTS namespace, and a slot whose previous
contents are the byte 65 repeated — the emitted `namespace` equals the stale
bytes and is not zero-filled. -/
theorem C2_namespace_stale_on_missing_uts :
    ((handle_sched_exec 0 true
        { pid := 0, state := 0, runtime := [], nspace := List.replicate 64 65,
          container := [] }
        { nsproxy := some { uts_ns := none }, comm := [] }
        { data_loc_filename := 0, payload := [] }).submitted.map lifecycle_event.nspace
      = [List.replicate 64 65]) ∧
    List.replicate 64 65 ≠ List.replicate (64 : Nat) 0 := by
  constructor
  · rfl
  · decide

/-- Claim C3: when the channel reservation returns no slot, each of the four
probes emits zero records and returns 0, with no other effect. -/
theorem C3_full_channel_silent_drop (pid_tgid count : Nat) (stale : syscall_event)
    (staleL : lifecycle_event) (file : Option File) (iocb : Kiocb) (iovLens : List Nat)
    (task : TaskStruct) (ctx : ExecCtx) :
    ((kprobe_vfs_write pid_tgid false stale file count).submitted = [] ∧
      (kprobe_vfs_write pid_tgid false stale file count).ret = 0) ∧
    ((kprobe_vfs_writev pid_tgid false stale iocb iovLens).submitted = [] ∧
      (kprobe_vfs_writev pid_tgid false stale iocb iovLens).ret = 0) ∧
    ((kprobe_vfs_pwritev pid_tgid false stale file iovLens).submitted = [] ∧
      (kprobe_vfs_pwritev pid_tgid false stale file iovLens).ret = 0) ∧
    ((handle_sched_exec pid_tgid false staleL task ctx).submitted = [] ∧
      (handle_sched_exec pid_tgid false staleL task ctx).ret = 0) := by
  cases file <;> cases h : iocb.ki_filp <;>
    simp [kprobe_vfs_write, kprobe_vfs_writev, kprobe_vfs_pwritev, handle_sched_exec,
      emit_syscall_event, h]

/-- Claim C4: with a NULL file handle, no SyscallEvent is produced, the path
resolver is never invoked, no channel slot is so much as requested, and the
probe returns 0 — on the shared helper and on each write probe. -/
theorem C4_null_file_skips_capture (pid_tgid count : Nat) (reserveOk : Bool)
    (stale : syscall_event) (iovLens : List Nat) :
    (emit_syscall_event pid_tgid reserveOk stale none count).submitted = [] ∧
    (emit_syscall_event pid_tgid reserveOk stale none count).resolverInvoked = false ∧
    (emit_syscall_event pid_tgid reserveOk stale none count).reserveAttempted = false ∧
    (emit_syscall_event pid_tgid reserveOk stale none count).ret = 0 ∧
    (kprobe_vfs_write pid_tgid reserveOk stale none count).submitted = [] ∧
    (kprobe_vfs_writev pid_tgid reserveOk stale ⟨none⟩ iovLens).submitted = [] ∧
    (kprobe_vfs_pwritev pid_tgid reserveOk stale none iovLens).submitted = [] := by
  simp [emit_syscall_event, kprobe_vfs_write, kprobe_vfs_writev, kprobe_vfs_pwritev]

/-- Claim C5: on a write capture that reserves a slot and whose primary
`bpf_d_path` resolution fails, the captured path is the dentry-name fallback
written into a freshly zero-filled 256-byte buffer; the result is identical
for any two prior slot contents, so no stale data survives. -/
theorem C5_fallback_path_no_stale (pid_tgid count : Nat) (stale stale2 : syscall_event)
    (f : File) (hfail : f.dPath = none) (hz : ∀ b ∈ f.dentryName, b ≠ 0) :
    ((emit_syscall_event pid_tgid true stale (some f) count).submitted.map
        syscall_event.path = [writeStr (List.replicate 256 0) 256 f.dentryName]) ∧
    ((emit_syscall_event pid_tgid true stale (some f) count).submitted.map
        (fun ev => bufStr ev.path) = [f.dentryName.take 255]) ∧
    emit_syscall_event pid_tgid true stale (some f) count
      = emit_syscall_event pid_tgid true stale2 (some f) count := by
  refine ⟨?_, ?_, ?_⟩ <;>
    simp [emit_syscall_event, hfail, bufStr_writeStr _ _ _ hz]

/-- Witness for C5: a file whose resolution fails and whose dentry name is
the single byte 97 produces exactly the fallback path, for two different
stale slots. -/
theorem C5_fallback_path_no_stale_witness :
    ((emit_syscall_event 0 true ⟨0, 0, []⟩ (some ⟨[97], none⟩) 0).submitted.map
        syscall_event.path = [writeStr (List.replicate 256 0) 256 [97]]) ∧
    ((emit_syscall_event 0 true ⟨0, 0, []⟩ (some ⟨[97], none⟩) 0).submitted.map
        (fun ev => bufStr ev.path) = [List.take 255 [97]]) ∧
    emit_syscall_event 0 true ⟨0, 0, []⟩ (some ⟨[97], none⟩) 0
      = emit_syscall_event 0 true ⟨1, 1, [2]⟩ (some ⟨[97], none⟩) 0 :=
  C5_fallback_path_no_stale 0 0 ⟨0, 0, []⟩ ⟨1, 1, [2]⟩ ⟨[97], none⟩ rfl (by decide)

/-- Claim C6: for every emitted SyscallEvent and every emitted LifecycleEvent,
the `pid` field is the upper 32 bits of the combined thread-group/thread
identifier (`bpf_get_current_pid_tgid() >> 32`). -/
theorem C6_pid_is_upper_32_bits (pid_tgid count : Nat) (stale : syscall_event)
    (staleL : lifecycle_event) (f : File) (task : TaskStruct) (ctx : ExecCtx)
    (h : pid_tgid < 2 ^ 64) :
    ((emit_syscall_event pid_tgid true stale (some f) count).submitted.map
        syscall_event.pid = [pid_tgid / 2 ^ 32]) ∧
    ((handle_sched_exec pid_tgid true staleL task ctx).submitted.map
        lifecycle_event.pid = [pid_tgid / 2 ^ 32]) := by
  have hlt : pid_tgid / 2 ^ 32 < 2 ^ 32 := by
    apply Nat.div_lt_of_lt_mul
    calc pid_tgid < 2 ^ 64 := h
      _ = 2 ^ 32 * 2 ^ 32 := by norm_num
  constructor <;>
      simp [emit_syscall_event_some_true, handle_sched_exec_true,
        Nat.mod_eq_of_lt hlt] <;>
    omega

/-- Witness for C6: a combined identifier with thread-group id 5 in the upper
half yields pid 5 on both event kinds. -/
theorem C6_pid_is_upper_32_bits_witness :
    ((emit_syscall_event (5 * 2 ^ 32 + 7) true ⟨0, 0, []⟩ (some ⟨[], none⟩) 0).submitted.map
        syscall_event.pid = [(5 * 2 ^ 32 + 7) / 2 ^ 32]) ∧
    ((handle_sched_exec (5 * 2 ^ 32 + 7) true ⟨0, 0, [], [], []⟩ ⟨none, []⟩
        ⟨0, []⟩).submitted.map lifecycle_event.pid = [(5 * 2 ^ 32 + 7) / 2 ^ 32]) :=
  C6_pid_is_upper_32_bits (5 * 2 ^ 32 + 7) 0 ⟨0, 0, []⟩ ⟨0, 0, [], [], []⟩ ⟨[], none⟩
    ⟨none, []⟩ ⟨0, []⟩ (by norm_num)

/-- Claim C7: on every probe invocation, the number of submitted records is 1
exactly when a slot was reserved and 0 otherwise — no path reserves a slot
and returns without submitting it. -/
theorem C7_reserve_implies_submit (pid_tgid count : Nat) (reserveOk : Bool)
    (stale : syscall_event) (staleL : lifecycle_event) (file : Option File) (iocb : Kiocb)
    (iovLens : List Nat) (task : TaskStruct) (ctx : ExecCtx) :
    ((emit_syscall_event pid_tgid reserveOk stale file count).submitted.length
      = if (emit_syscall_event pid_tgid reserveOk stale file count).slotReserved
          then 1 else 0) ∧
    ((kprobe_vfs_write pid_tgid reserveOk stale file count).submitted.length
      = if (kprobe_vfs_write pid_tgid reserveOk stale file count).slotReserved
          then 1 else 0) ∧
    ((kprobe_vfs_writev pid_tgid reserveOk stale iocb iovLens).submitted.length
      = if (kprobe_vfs_writev pid_tgid reserveOk stale iocb iovLens).slotReserved
          then 1 else 0) ∧
    ((kprobe_vfs_pwritev pid_tgid reserveOk stale file iovLens).submitted.length
      = if (kprobe_vfs_pwritev pid_tgid reserveOk stale file iovLens).slotReserved
          then 1 else 0) ∧
    ((handle_sched_exec pid_tgid reserveOk staleL task ctx).submitted.length
      = if (handle_sched_exec pid_tgid reserveOk staleL task ctx).slotReserved
          then 1 else 0) := by
  cases reserveOk <;> cases file <;> cases h : iocb.ki_filp <;>
    simp [emit_syscall_event, kprobe_vfs_write, kprobe_vfs_writev, kprobe_vfs_pwritev,
      handle_sched_exec, h]

/-- Claim C8: for every emitted LifecycleEvent, the string content of the
`container` field is the C string found in the trace record at the byte
offset given by the `__data_loc_filename` descriptor masked to its lower 16
bits, truncated to the 63 characters the 64-byte field can hold beside its
terminator. -/
theorem C8_container_from_descriptor_offset (pid_tgid : Nat) (staleL : lifecycle_event)
    (task : TaskStruct) (ctx : ExecCtx) :
    (handle_sched_exec pid_tgid true staleL task ctx).submitted.map
        (fun ev => bufStr ev.container)
      = [(cstrAt ctx.payload (ctx.data_loc_filename % 2 ^ 16)).take 63] := by
  simp [handle_sched_exec_true, bufStr_writeStr _ _ _ (cstrAt_ne_zero ctx.payload _)]

/-- Claim C9: a single-buffer write of caller-supplied length B with a live
file handle captures `bytes = B` exactly; the model takes the length at call
entry, so the later completion status cannot influence it. -/
theorem C9_single_write_bytes_exact (pid_tgid count : Nat) (stale : syscall_event)
    (f : File) (h : count < 2 ^ 64) :
    (kprobe_vfs_write pid_tgid true stale (some f) count).submitted.map
        syscall_event.bytes = [count] := by
  simp only [kprobe_vfs_write, emit_syscall_event_some_true, Nat.mod_eq_of_lt h,
    List.map_cons, List.map_nil]

/-- Witness for C9: a 42-byte write captures bytes = 42. -/
theorem C9_single_write_bytes_exact_witness :
    (kprobe_vfs_write 0 true ⟨0, 0, []⟩ (some ⟨[], none⟩) 42).submitted.map
        syscall_event.bytes = [42] :=
  C9_single_write_bytes_exact 0 42 ⟨0, 0, []⟩ ⟨[], none⟩ (by norm_num)

/-- Claim C10: every emitted SyscallEvent's 256-byte path buffer contains a
NUL terminator, on both the primary resolution path and the dentry-name
fallback path. -/
theorem C10_path_nul_terminated (pid_tgid count : Nat) (reserveOk : Bool)
    (stale : syscall_event) (file : Option File) :
    ∀ ev ∈ (emit_syscall_event pid_tgid reserveOk stale file count).submitted,
      0 ∈ ev.path ∧ ev.path.length = 256 := by
  intro ev hev
  match file, reserveOk with
  | none, _ => simp [emit_syscall_event] at hev
  | some f, false => simp [emit_syscall_event] at hev
  | some f, true =>
      rw [emit_syscall_event_some_true] at hev
      simp only [List.mem_singleton] at hev
      subst hev
      cases hdp : f.dPath with
      | none =>
          simp only [hdp]
          exact ⟨zero_mem_writeStr _ _ _, writeStr_length _ _ _ (by simp) (by norm_num)⟩
      | some p =>
          simp only [hdp]
          exact ⟨zero_mem_writeStr _ _ _, writeStr_length _ _ _ (by simp) (by norm_num)⟩

/-- Witness for C10: the event emitted for a concrete fallback capture has a
NUL in its path and a 256-byte path buffer. -/
theorem C10_path_nul_terminated_witness :
    0 ∈ (syscall_event.mk (0 / 2 ^ 32 % 2 ^ 32) (0 % 2 ^ 64)
          (writeStr (List.replicate 256 0) 256 [])).path ∧
    (syscall_event.mk (0 / 2 ^ 32 % 2 ^ 32) (0 % 2 ^ 64)
          (writeStr (List.replicate 256 0) 256 [])).path.length = 256 :=
  C10_path_nul_terminated 0 0 true ⟨0, 0, []⟩ (some ⟨[], none⟩) _ (by
    rw [emit_syscall_event_some_true]
    simp)
